import Mathlib

/-!
# local-ocpp: verification of the OCPP 1.6 gateway core (src/index.ts)

Shallow embedding of the single source file `src/index.ts`: a WebSocket
server speaking the OCPP 1.6 JSON-array protocol to chargers, a global
`chargerConnections` map from charge-point id to socket, and two Express
HTTP endpoints (`POST /start`, `POST /stop`) that build and send
RemoteStartTransaction / RemoteStopTransaction call frames.

Modelling decisions (each noted again at the definition it concerns):
* JSON values are `Json`; numbers are modelled as `Int` (every number this
  program reads or writes is an integer).
* `JSON.parse` is modelled by its outcome: a raw text frame is either
  `some j` (parses to the JSON value `j`) or `none` (invalid JSON, where
  `JSON.parse` throws).  The source has no try/catch around the parse, so
  the throw escapes the `message` handler; this is modelled as
  `Except.error JsError.parseError`.
* A JavaScript expression value is `JsVal`: either a JSON value or
  `undefined`.  Property access on `null`/`undefined` throws
  (`JsError.typeError`); on objects it looks the field up; on the other
  values the fields this program reads are always absent, yielding
  `undefined`.
* Sockets are opaque references modelled as `ConnId := Nat`.  The JS `Map`
  key comparison (SameValueZero) is `keyEq`: structural equality on
  primitives; two object/array keys compare unequal, faithful to reference
  equality because every parsed value is a fresh reference.
* Side effects (socket sends, console logs, socket closes) are reified as
  a `List Effect` returned next to the new state.  The source never calls
  `ws.close()`, so no code path emits `Effect.closeConn`; the constructor
  exists so "the registry does not close sockets" is expressible.
* Log text: the raw-frame echo in `console.log('Received: ...')` is
  elided to the constant `"Received"`; template-literal interpolation of a
  JS value is `jsDisplay` (exact for the primitives this program logs).
-/

namespace LocalOcpp

/-- JSON values as produced by `JSON.parse`.  Numbers are `Int`: every
number on this program's wire (`messageTypeId` 2/3, `interval` 300,
`connectorId`, `transactionId`) is integral.  Objects are field lists with
the keys already deduplicated, as `JSON.parse` keeps one binding per key. -/
inductive Json where
  | null
  | bool (b : Bool)
  | num (n : Int)
  | str (s : String)
  | arr (xs : List Json)
  | obj (fs : List (String × Json))

/-- A JavaScript expression value: a JSON value or `undefined`. -/
inductive JsVal where
  | undefined
  | val (j : Json)

/-- Exceptions the untried code can throw: `JSON.parse` on invalid JSON,
and property access / destructuring on `null` or `undefined`. -/
inductive JsError where
  | parseError
  | typeError

/-- Opaque socket reference (the `ws : WebSocket` handle). -/
def ConnId : Type := Nat

instance : DecidableEq ConnId := fun a b => Nat.decEq a b

instance : OfNat ConnId n := ⟨(n : Nat)⟩

/-- Field lookup in a parsed JSON object (keys are unique, see `Json`). -/
def lookupField : List (String × Json) → String → Option Json
  | [], _ => none
  | (k, v) :: rest, key => if k = key then some v else lookupField rest key

/-- JavaScript property access `v.key`, as used by the source on parse
results.  Throws `TypeError` on `null`/`undefined`; looks fields up on
objects; returns `undefined` elsewhere (none of the property names this
program reads — `messageTypeId`, `uniqueId`, `action`, `payload`,
`chargePoint*`, `connectorId`, `idTag`, `transactionId` — is a built-in
property of strings, numbers, booleans or arrays). -/
def getProp : JsVal → String → Except JsError JsVal
  | .undefined, _ => .error .typeError
  | .val .null, _ => .error .typeError
  | .val (.obj fs), key =>
      match lookupField fs key with
      | some v => .ok (.val v)
      | none => .ok .undefined
  | .val _, _ => .ok .undefined

/-- JavaScript truthiness of a value, as used by `||` and `!`. -/
def truthy : JsVal → Bool
  | .undefined => false
  | .val .null => false
  | .val (.bool b) => b
  | .val (.num n) => n != 0
  | .val (.str s) => s != ""
  | .val (.arr _) => true
  | .val (.obj _) => true

/-- JavaScript `a || b`. -/
def jsOr (a b : JsVal) : JsVal := if truthy a then a else b

/-- JavaScript strict equality `v === n` against a number literal. -/
def jsEqNum : JsVal → Int → Bool
  | .val (.num n), k => n == k
  | _, _ => false

/-- JavaScript strict equality `v === s` against a string literal. -/
def jsEqStr : JsVal → String → Bool
  | .val (.str s), t => s == t
  | _, _ => false

/-- A `JsVal` placed into a JSON structure that is then serialised:
`JSON.stringify` renders `undefined` array elements and property values
as `null`. -/
def jsonOfJsVal : JsVal → Json
  | .undefined => .null
  | .val j => j

/-- Template-literal interpolation of a JS value, exact for the
primitives this program logs; composite values are abbreviated (the
program never interpolates them on the paths the claims touch). -/
def jsDisplay : JsVal → String
  | .undefined => "undefined"
  | .val .null => "null"
  | .val (.bool b) => toString b
  | .val (.num n) => toString n
  | .val (.str s) => s
  | .val (.arr _) => "array"
  | .val (.obj _) => "object"

/-- JS `Map` key comparison (SameValueZero) restricted to the values this
program uses as keys.  Primitives compare structurally; object/array keys
compare unequal, which is faithful to reference equality: every key the
program inserts or probes with comes from a fresh `JSON.parse`, so two
composite keys are never the same reference. -/
def keyEq : JsVal → JsVal → Bool
  | .undefined, .undefined => true
  | .val .null, .val .null => true
  | .val (.bool a), .val (.bool b) => a == b
  | .val (.num a), .val (.num b) => a == b
  | .val (.str a), .val (.str b) => a == b
  | _, _ => false

/-- `Map.prototype.set`: update the value of the (unique) matching key in
place, else append a new entry in insertion order. -/
def mapSet : List (JsVal × ConnId) → JsVal → ConnId → List (JsVal × ConnId)
  | [], k, v => [(k, v)]
  | e :: rest, k, v => if keyEq e.1 k then (k, v) :: rest else e :: mapSet rest k v

/-- `Map.prototype.get`. -/
def mapGet : List (JsVal × ConnId) → JsVal → Option ConnId
  | [], _ => none
  | e :: rest, k => if keyEq e.1 k then some e.2 else mapGet rest k

/-- The `ws.on('close')` loop: walk `chargerConnections.entries()` in
insertion order, `delete` the first entry whose value `=== ws`, `break`. -/
def removeFirstByConn : List (JsVal × ConnId) → ConnId → List (JsVal × ConnId)
  | [], _ => []
  | e :: rest, c => if e.2 = c then rest else e :: removeFirstByConn rest c

/-- Number of registry entries under a given key. -/
def countKey : List (JsVal × ConnId) → JsVal → Nat
  | [], _ => 0
  | e :: rest, k => (if keyEq e.1 k then 1 else 0) + countKey rest k

/-- The `Map` representation invariant: no two stored entries have equal
keys.  Every sequence of `mapSet`/`removeFirstByConn` operations from the
empty map maintains it. -/
def keysOk (m : List (JsVal × ConnId)) : Prop :=
  List.Pairwise (fun a b => keyEq a.1 b.1 = false) m

/-- The program's entire mutable state: the module-level
`chargerConnections : Map<string, WebSocket>`. -/
structure SrvState where
  chargerConnections : List (JsVal × ConnId)

/-- Observable side effects of a handler invocation. `closeConn` is the
`ws.close()` capability of the transport; the source never invokes it. -/
inductive Effect where
  | sendFrame (conn : ConnId) (frame : Json)
  | log (line : String)
  | logError (line : String)
  | closeConn (conn : ConnId)

/-- Whether an effect closes a socket. -/
def isCloseEffect : Effect → Bool
  | .closeConn _ => true
  | _ => false

/-- Whether an effect sends a frame on some socket. -/
def isSendEffect : Effect → Bool
  | .sendFrame _ _ => true
  | _ => false

/-- `const CALL_MESSAGE = 2`. -/
def CALL_MESSAGE : Int := 2

/-- `const CALL_RESULT_MESSAGE = 3`. -/
def CALL_RESULT_MESSAGE : Int := 3

/-- The CallResult frame built by `sendBootNotificationResponse`:
`[3, uniqueId, currentTime/interval/status]` with `interval: 300` and
`status: 'Accepted'`; `new Date().toISOString()` is the parameter
`nowIso`. -/
def bootResponseFrame (uniqueId : JsVal) (nowIso : String) : Json :=
  .arr [.num CALL_RESULT_MESSAGE, jsonOfJsVal uniqueId,
        .obj [("currentTime", .str nowIso), ("interval", .num 300),
              ("status", .str "Accepted")]]

/-- `sendBootNotificationResponse(ws, uniqueId)`: a single `ws.send`. -/
def sendBootNotificationResponse (ws : ConnId) (uniqueId : JsVal) (nowIso : String) : Effect :=
  .sendFrame ws (bootResponseFrame uniqueId nowIso)

/-- Line 94 of the source:
`ocppMessage.payload.chargePointSerialNumber || ocppMessage.payload.chargePointModel`. -/
def chargePointIdOf (payload : JsVal) : Except JsError JsVal := do
  let serial ← getProp payload "chargePointSerialNumber"
  let mdl ← getProp payload "chargePointModel"
  pure (jsOr serial mdl)

/-- The body of `ws.on('message', ...)` after `JSON.parse` succeeded with
value `m` (as `JsVal`, always `.val`): the three-way dispatch on
`messageTypeId`/`action`, the BootNotification branch
(`chargerConnections.set`, connect log, `sendBootNotificationResponse`),
the CallResult log branch, and the unsupported-message branch.  Property
reads that the source performs twice with the same result are performed
once. -/
def handleParsed (s : SrvState) (selfConn : ConnId) (nowIso : String) (m : JsVal) :
    Except JsError (SrvState × List Effect) := do
  let mtid ← getProp m "messageTypeId"
  let act ← getProp m "action"
  if jsEqNum mtid CALL_MESSAGE && jsEqStr act "BootNotification" then
    let payload ← getProp m "payload"
    let mdl ← getProp payload "chargePointModel"
    let vnd ← getProp payload "chargePointVendor"
    let chargePointId ← chargePointIdOf payload
    let uid ← getProp m "uniqueId"
    pure ({ chargerConnections := mapSet s.chargerConnections chargePointId selfConn },
          [Effect.log ("Charger " ++ jsDisplay chargePointId ++ " connected: Model " ++
             jsDisplay mdl ++ ", Vendor " ++ jsDisplay vnd),
           sendBootNotificationResponse selfConn uid nowIso])
  else if jsEqNum mtid CALL_RESULT_MESSAGE then
    pure (s, [Effect.log ("Received response for: " ++ jsDisplay act)])
  else
    pure (s, [Effect.log "Unsupported message type or action"])

/-- The full `ws.on('message')` handler on a raw frame, with `JSON.parse`
modelled by its outcome (`none` = invalid JSON, the parse throws and the
exception escapes the handler — there is no try/catch). -/
def processRaw (s : SrvState) (selfConn : ConnId) (nowIso : String) (parsed : Option Json) :
    Except JsError (SrvState × List Effect) :=
  match parsed with
  | none => .error .parseError
  | some j =>
      match handleParsed s selfConn nowIso (.val j) with
      | .ok (s', effs) => .ok (s', Effect.log "Received" :: effs)
      | .error e => .error e

/-- The `ws.on('close')` handler: remove the first registry entry whose
value is the closing socket (then `break`). -/
def closeStep (s : SrvState) (ws : ConnId) : SrvState :=
  { chargerConnections := removeFirstByConn s.chargerConnections ws }

/-- `sendMessageToCharger(chargePointId, message)`: look the target up in
`chargerConnections`; on a hit `ws.send` the serialised frame and log, on
a miss `console.error` only.  The function returns nothing to its caller
in either case and touches no state. -/
def sendMessageToCharger (s : SrvState) (chargePointId : JsVal) (frame : Json) : List Effect :=
  match mapGet s.chargerConnections chargePointId with
  | some ws => [Effect.sendFrame ws frame,
                Effect.log ("Message sent to charger " ++ jsDisplay chargePointId)]
  | none => [Effect.logError ("Charger with ID " ++ jsDisplay chargePointId ++ " not connected")]

/-- The Call frame built by `sendRemoteStartTransaction`:
`[2, Date.now() as a string, 'RemoteStartTransaction', connectorId/idTag]`.
`nowMs` is the millisecond clock reading `Date.now()`. -/
def remoteStartFrame (nowMs : Nat) (connectorId idTag : JsVal) : Json :=
  .arr [.num CALL_MESSAGE, .str (toString nowMs), .str "RemoteStartTransaction",
        .obj [("connectorId", jsonOfJsVal connectorId), ("idTag", jsonOfJsVal idTag)]]

/-- The Call frame built by `sendRemoteStopTransaction`:
`[2, Date.now() as a string, 'RemoteStopTransaction', transactionId]`. -/
def remoteStopFrame (nowMs : Nat) (transactionId : JsVal) : Json :=
  .arr [.num CALL_MESSAGE, .str (toString nowMs), .str "RemoteStopTransaction",
        .obj [("transactionId", jsonOfJsVal transactionId)]]

/-- `sendRemoteStartTransaction(chargePointId, connectorId, idTag)`. -/
def sendRemoteStartTransaction (s : SrvState) (nowMs : Nat)
    (chargePointId connectorId idTag : JsVal) : List Effect :=
  sendMessageToCharger s chargePointId (remoteStartFrame nowMs connectorId idTag)

/-- `sendRemoteStopTransaction(chargePointId, transactionId)`. -/
def sendRemoteStopTransaction (s : SrvState) (nowMs : Nat)
    (chargePointId transactionId : JsVal) : List Effect :=
  sendMessageToCharger s chargePointId (remoteStopFrame nowMs transactionId)

/-- An HTTP response as the Express handlers produce it. -/
structure HttpResp where
  status : Nat
  body : String

/-- `app.post('/start')`: destructure the parsed body, reject with 400
when `!chargePointId || !connectorId || !idTag` ("missing required
parameters"), otherwise `sendRemoteStartTransaction` and answer 200 with
confirmation text.  The registry is read, never written. -/
def handleStartPost (s : SrvState) (nowMs : Nat) (body : JsVal) :
    Except JsError (HttpResp × List Effect) := do
  let chargePointId ← getProp body "chargePointId"
  let connectorId ← getProp body "connectorId"
  let idTag ← getProp body "idTag"
  if !truthy chargePointId || !truthy connectorId || !truthy idTag then
    pure ({ status := 400,
            body := "Missing required parameters: chargePointId, connectorId, idTag" }, [])
  else
    pure ({ status := 200,
            body := "RemoteStartTransaction sent to charger " ++ jsDisplay chargePointId },
          sendRemoteStartTransaction s nowMs chargePointId connectorId idTag)

/-- `app.post('/stop')`: same contract shape for RemoteStopTransaction. -/
def handleStopPost (s : SrvState) (nowMs : Nat) (body : JsVal) :
    Except JsError (HttpResp × List Effect) := do
  let chargePointId ← getProp body "chargePointId"
  let transactionId ← getProp body "transactionId"
  if !truthy chargePointId || !truthy transactionId then
    pure ({ status := 400,
            body := "Missing required parameters: chargePointId, transactionId" }, [])
  else
    pure ({ status := 200,
            body := "RemoteStopTransaction sent to charger " ++ jsDisplay chargePointId },
          sendRemoteStopTransaction s nowMs chargePointId transactionId)

/-- A well-formed object-shaped BootNotification message as the handler's
dispatch condition expects it (the named-field shape, not the OCPP array
wire shape). -/
def bootMsg (uid serial model vendor : String) : Json :=
  .obj [("messageTypeId", .num 2), ("uniqueId", .str uid),
        ("action", .str "BootNotification"),
        ("payload", .obj [("chargePointModel", .str model),
                          ("chargePointVendor", .str vendor),
                          ("chargePointSerialNumber", .str serial)])]

/-- The OCPP wire-shape BootNotification Call of the spec's scenario:
`[2, "1", "BootNotification", payload]`. -/
def wireBootFrame : Json :=
  .arr [.num 2, .str "1", .str "BootNotification",
        .obj [("chargePointModel", .str "X1"), ("chargePointVendor", .str "Acme"),
              ("chargePointSerialNumber", .str "SN42")]]

/-- uniqueId slot (element 1) of an array-shaped frame, when a string. -/
def frameUniqueId : Json → Option String
  | .arr (_ :: .str u :: _) => some u
  | _ => none

/-- action slot (element 2) of an array-shaped Call frame, when a string. -/
def frameAction : Json → Option String
  | .arr (_ :: _ :: .str a :: _) => some a
  | _ => none

/-- Field access on a parsed object as a `JsVal` (`undefined` when the
field is absent). -/
def objField (fs : List (String × Json)) (key : String) : JsVal :=
  match lookupField fs key with
  | some v => .val v
  | none => .undefined

/-- The two effects of the BootNotification branch on a well-formed
object-shaped message whose derived id is the (truthy) serial: the
connect log and the CallResult reply. -/
def bootEffects (c : ConnId) (serial model vendor u t : String) : List Effect :=
  [Effect.log ("Charger " ++ serial ++ " connected: Model " ++ model ++
     ", Vendor " ++ vendor),
   sendBootNotificationResponse c (.val (.str u)) t]

/-!
## Library lemmas about the embedded map and handlers
-/

/-- `keyEq` is sound: it only identifies equal values. -/
theorem keyEq_eq {a b : JsVal} (h : keyEq a b = true) : a = b := by
  cases a with
  | undefined =>
    cases b with
    | undefined => rfl
    | val j => cases j <;> simp [keyEq] at h
  | val ja =>
    cases b with
    | undefined => cases ja <;> simp [keyEq] at h
    | val jb => cases ja <;> cases jb <;> simp_all [keyEq]

/-- A failed key comparison fails in the other orientation too. -/
theorem keyEq_symm_false {a b : JsVal} (h : keyEq a b = false) : keyEq b a = false := by
  cases hb : keyEq b a
  · rfl
  · have hab : b = a := keyEq_eq hb
    subst hab
    rw [hb] at h
    exact h

/-- String keys compare equal to themselves. -/
theorem keyEq_str_self (s : String) : keyEq (.val (.str s)) (.val (.str s)) = true := by
  simp [keyEq]

/-- Property access on a parsed object never throws and returns the field
(or `undefined`). -/
theorem getProp_obj (fs : List (String × Json)) (key : String) :
    getProp (.val (.obj fs)) key = .ok (objField fs key) := by
  cases h : lookupField fs key <;> simp [getProp, objField, h]

/-- After `Map.set`, `Map.get` at the same (primitive) key sees the new
value. -/
theorem mapGet_mapSet_self (m : List (JsVal × ConnId)) (k : JsVal) (v : ConnId)
    (hk : keyEq k k = true) : mapGet (mapSet m k v) k = some v := by
  induction m with
  | nil => simp [mapSet, mapGet, hk]
  | cons e rest ih =>
    cases hek : keyEq e.1 k with
    | true => simp [mapSet, mapGet, hek, hk]
    | false => simp [mapSet, mapGet, hek, ih]

/-- `Map.set` leaves lookups at other keys unchanged. -/
theorem mapGet_mapSet_ne (m : List (JsVal × ConnId)) (k k' : JsVal) (v : ConnId)
    (h : keyEq k k' = false) : mapGet (mapSet m k v) k' = mapGet m k' := by
  induction m with
  | nil => simp [mapSet, mapGet, h]
  | cons e rest ih =>
    cases hek : keyEq e.1 k with
    | true =>
      have h1 : e.1 = k := keyEq_eq hek
      rw [mapSet, if_pos hek]
      simp [mapGet, h1, h]
    | false => simp [mapSet, mapGet, hek, ih]

/-- A key matching no entry is not found. -/
theorem mapGet_eq_none_of_all (m : List (JsVal × ConnId)) (k : JsVal)
    (h : ∀ e ∈ m, keyEq e.1 k = false) : mapGet m k = none := by
  induction m with
  | nil => rfl
  | cons e rest ih =>
    have he : keyEq e.1 k = false := h e (by simp)
    simp [mapGet, he]
    exact ih (fun b hb => h b (by simp [hb]))

/-- A key matching no entry is counted zero times. -/
theorem countKey_eq_zero_of_all (m : List (JsVal × ConnId)) (k : JsVal)
    (h : ∀ e ∈ m, keyEq e.1 k = false) : countKey m k = 0 := by
  induction m with
  | nil => rfl
  | cons e rest ih =>
    have he : keyEq e.1 k = false := h e (by simp)
    simp [countKey, he]
    exact ih (fun b hb => h b (by simp [hb]))

/-- If the head entry matches probe `k` and is pairwise key-distinct from
the tail, no tail entry matches `k`. -/
theorem all_keyEq_false_of_pairwise {e : JsVal × ConnId} {rest : List (JsVal × ConnId)}
    {k : JsVal} (hek : keyEq e.1 k = true)
    (hp : ∀ b ∈ rest, keyEq e.1 b.1 = false) :
    ∀ b ∈ rest, keyEq b.1 k = false := by
  intro b hb
  have h1 : e.1 = k := keyEq_eq hek
  have h2 : keyEq k b.1 = false := h1 ▸ hp b hb
  cases hbk : keyEq b.1 k with
  | false => rfl
  | true =>
    have h3 : b.1 = k := keyEq_eq hbk
    rw [h3] at h2
    rw [h3] at hbk
    rw [hbk] at h2
    exact h2

/-- On a well-formed map, `Map.set` leaves exactly one entry under the
written key. -/
theorem countKey_mapSet (m : List (JsVal × ConnId)) (k : JsVal) (v : ConnId)
    (hk : keyEq k k = true) (hm : keysOk m) : countKey (mapSet m k v) k = 1 := by
  induction m with
  | nil => simp [mapSet, countKey, hk]
  | cons e rest ih =>
    rw [keysOk, List.pairwise_cons] at hm
    cases hek : keyEq e.1 k with
    | true =>
      have hz : countKey rest k = 0 :=
        countKey_eq_zero_of_all rest k (all_keyEq_false_of_pairwise hek hm.1)
      simp [mapSet, countKey, hek, hk, hz]
    | false => simp [mapSet, countKey, hek, ih hm.2]

/-- Entries of a map after `Map.set` come from the old map or are the new
binding. -/
theorem mem_mapSet {m : List (JsVal × ConnId)} {k : JsVal} {v : ConnId}
    {b : JsVal × ConnId} (hb : b ∈ mapSet m k v) : b ∈ m ∨ b = (k, v) := by
  induction m with
  | nil => simp [mapSet] at hb; exact Or.inr hb
  | cons e rest ih =>
    cases hek : keyEq e.1 k with
    | true =>
      simp [mapSet, hek] at hb
      rcases hb with hb | hb
      · exact Or.inr (by simp [hb])
      · exact Or.inl (by simp [hb])
    | false =>
      simp [mapSet, hek] at hb
      rcases hb with hb | hb
      · exact Or.inl (by simp [hb])
      · rcases ih hb with h | h
        · exact Or.inl (by simp [h])
        · exact Or.inr h

/-- `Map.set` preserves the unique-keys invariant. -/
theorem keysOk_mapSet {m : List (JsVal × ConnId)} (k : JsVal) (v : ConnId)
    (hm : keysOk m) : keysOk (mapSet m k v) := by
  induction m with
  | nil => simp [mapSet, keysOk]
  | cons e rest ih =>
    rw [keysOk, List.pairwise_cons] at hm
    cases hek : keyEq e.1 k with
    | true =>
      rw [keysOk, mapSet, if_pos hek, List.pairwise_cons]
      refine ⟨?_, hm.2⟩
      intro b hb
      have h1 : e.1 = k := keyEq_eq hek
      exact (h1 ▸ hm.1 b hb : keyEq k b.1 = false)
    | false =>
      have hek' : ¬ (keyEq e.1 k = true) := by simp [hek]
      rw [keysOk, mapSet, if_neg hek', List.pairwise_cons]
      refine ⟨?_, ih hm.2⟩
      intro b hb
      rcases mem_mapSet hb with h | h
      · exact hm.1 b h
      · rw [h]
        exact hek

/-- The close loop is the identity when no entry holds the closing
socket. -/
theorem removeFirst_of_no_match (m : List (JsVal × ConnId)) (c : ConnId)
    (h : ∀ e ∈ m, e.2 ≠ c) : removeFirstByConn m c = m := by
  induction m with
  | nil => rfl
  | cons e rest ih =>
    have he : e.2 ≠ c := h e (by simp)
    simp [removeFirstByConn, he]
    exact ih (fun b hb => h b (by simp [hb]))

/-- The close loop drops exactly the first entry holding the closing
socket and leaves everything after it untouched. -/
theorem removeFirst_append (pre post : List (JsVal × ConnId)) (ident : JsVal) (c : ConnId)
    (hpre : ∀ e ∈ pre, e.2 ≠ c) :
    removeFirstByConn (pre ++ (ident, c) :: post) c = pre ++ post := by
  induction pre with
  | nil => simp [removeFirstByConn]
  | cons e rest ih =>
    have he : e.2 ≠ c := hpre e (by simp)
    simp [removeFirstByConn, he]
    exact ih (fun b hb => hpre b (by simp [hb]))

/-- Registering a fresh socket under key `k` and then closing that socket
leaves `k` unbound. -/
theorem close_after_set (m : List (JsVal × ConnId)) (k : JsVal) (c : ConnId)
    (hc : ∀ e ∈ m, e.2 ≠ c) (hm : keysOk m) :
    mapGet (removeFirstByConn (mapSet m k c) c) k = none := by
  induction m with
  | nil => simp [mapSet, removeFirstByConn, mapGet]
  | cons e rest ih =>
    rw [keysOk, List.pairwise_cons] at hm
    cases hek : keyEq e.1 k with
    | true =>
      rw [mapSet, if_pos hek]
      simp only [removeFirstByConn, if_pos rfl]
      exact mapGet_eq_none_of_all rest k (all_keyEq_false_of_pairwise hek hm.1)
    | false =>
      have hek' : ¬ (keyEq e.1 k = true) := by simp [hek]
      have he : e.2 ≠ c := hc e (by simp)
      rw [mapSet, if_neg hek']
      simp only [removeFirstByConn, if_neg he]
      rw [mapGet, if_neg hek']
      exact ih (fun b hb => hc b (by simp [hb])) hm.2

/-- Evaluation of the message handler on a well-formed object-shaped
BootNotification: register the derived id and emit the connect log and the
CallResult send. -/
theorem boot_step_eq (s : SrvState) (c : ConnId) (u serial model vendor t : String) :
    handleParsed s c t (.val (bootMsg u serial model vendor)) =
    .ok ({ chargerConnections :=
             mapSet s.chargerConnections
               (jsOr (.val (.str serial)) (.val (.str model))) c },
         [Effect.log ("Charger " ++ jsDisplay (jsOr (.val (.str serial)) (.val (.str model))) ++
            " connected: Model " ++ model ++ ", Vendor " ++ vendor),
          sendBootNotificationResponse c (.val (.str u)) t]) := rfl

/-- A non-empty serial number is truthy, so the derived id is the serial. -/
theorem jsOr_str_of_ne {serial : String} (model : String) (h : serial ≠ "") :
    jsOr (.val (.str serial)) (.val (.str model)) = .val (.str serial) := by
  simp [jsOr, truthy, h]

/-!
## Claim theorems
-/

/-- C1: the claim says every inbound wire-shape OCPP Call
`[2, uniqueId, "BootNotification", payload]` is answered with a CallResult
`[3, uniqueId, currentTime/interval 300/status Accepted]` on the same
connection.  The code parses the frame and then reads `messageTypeId` and
`action` as named properties; on the parsed array those are `undefined`,
so the spec's own scenario frame falls into the unsupported-message branch:
the handler only logs, sends nothing, and registers nothing. -/
theorem C1_wire_boot_call_gets_no_reply :
    handleParsed ⟨[]⟩ 0 "2024-01-01T00:00:00.000Z" (.val wireBootFrame) =
      .ok (⟨[]⟩, [Effect.log "Unsupported message type or action"]) := rfl

/-- C2 counterexample: a connection that completes two BootNotification
handshakes (identities I1 then I2) is registered twice; its close removes
only the first-iterated entry, so a lookup of I2 afterwards still returns
the closed connection instead of NotFound, refuting the claim for the
handshake that established I2. -/
theorem C2_counterexample_dual_identity_close :
    handleParsed ⟨[]⟩ 0 "t0" (.val (bootMsg "1" "I1" "X1" "Acme")) =
      .ok (⟨[(.val (.str "I1"), 0)]⟩, bootEffects 0 "I1" "X1" "Acme" "1" "t0") ∧
    handleParsed ⟨[(.val (.str "I1"), 0)]⟩ 0 "t1" (.val (bootMsg "2" "I2" "X1" "Acme")) =
      .ok (⟨[(.val (.str "I1"), 0), (.val (.str "I2"), 0)]⟩,
           bootEffects 0 "I2" "X1" "Acme" "2" "t1") ∧
    closeStep ⟨[(.val (.str "I1"), 0), (.val (.str "I2"), 0)]⟩ 0 = ⟨[(.val (.str "I2"), 0)]⟩ ∧
    mapGet (closeStep ⟨[(.val (.str "I1"), 0), (.val (.str "I2"), 0)]⟩ 0).chargerConnections
      (.val (.str "I2")) = some 0 := ⟨rfl, rfl, rfl, rfl⟩

/-- C2 (amended): for a connection registered under no other identity, a
BootNotification with truthy derived identity I registers it so that a
lookup of I returns it, and after that connection closes a lookup of I
returns NotFound (the close handler removes the entry by reverse lookup
from the connection). -/
theorem C2_single_identity_register_then_close (s : SrvState) (c : ConnId)
    (u serial model vendor t : String) (hserial : serial ≠ "")
    (hfresh : ∀ e ∈ s.chargerConnections, e.2 ≠ c)
    (hok : keysOk s.chargerConnections) :
    handleParsed s c t (.val (bootMsg u serial model vendor)) =
      .ok (⟨mapSet s.chargerConnections (.val (.str serial)) c⟩,
           bootEffects c serial model vendor u t) ∧
    mapGet (mapSet s.chargerConnections (.val (.str serial)) c) (.val (.str serial)) = some c ∧
    mapGet (closeStep ⟨mapSet s.chargerConnections (.val (.str serial)) c⟩ c).chargerConnections
      (.val (.str serial)) = none := by
  have hor := jsOr_str_of_ne model hserial
  refine ⟨?_, ?_, ?_⟩
  · rw [boot_step_eq s c u serial model vendor t, hor]
    rfl
  · exact mapGet_mapSet_self _ _ _ (keyEq_str_self serial)
  · exact close_after_set _ _ _ hfresh hok

/-- C2 witness: a fresh connection boots as SN42 on the empty registry,
then closes; the lookups behave as the amended claim states. -/
theorem C2_single_identity_register_then_close_witness :
    handleParsed ⟨[]⟩ 0 "t" (.val (bootMsg "1" "SN42" "X1" "Acme")) =
      .ok (⟨mapSet [] (.val (.str "SN42")) 0⟩, bootEffects 0 "SN42" "X1" "Acme" "1" "t") ∧
    mapGet (mapSet [] (.val (.str "SN42")) 0) (.val (.str "SN42")) = some 0 ∧
    mapGet (closeStep ⟨mapSet [] (.val (.str "SN42")) 0⟩ 0).chargerConnections
      (.val (.str "SN42")) = none :=
  C2_single_identity_register_then_close ⟨[]⟩ 0 "1" "SN42" "X1" "Acme" "t"
    (by decide) (by simp) List.Pairwise.nil

/-- C3 counterexample: with an empty registry (target not connected) and a
well-formed body, `POST /start` answers 200 with confirmation text — a
success response, not the 404/409-class surfacing of
DeliveryError(NotConnected) the claim states; the only trace of the
failure is a `console.error`. -/
theorem C3_counterexample_not_connected_returns_200 :
    handleStartPost ⟨[]⟩ 5 (.val (.obj [("chargePointId", .str "SN42"),
        ("connectorId", .num 1), ("idTag", .str "TAG1")])) =
      .ok ({ status := 200, body := "RemoteStartTransaction sent to charger SN42" },
           [Effect.logError "Charger with ID SN42 not connected"]) := rfl

/-- C3 (amended): sending RemoteStartTransaction to an identity with no
registered connection sends no frame on any socket and creates no pending
correlation (the program keeps no correlation state at all); the failure
is only logged via `console.error`, and the HTTP layer still responds 200
with confirmation text. -/
theorem C3_not_connected_logged_only_http_200 (s : SrvState) (t : Nat) (cp ci tag : Json)
    (hcp : truthy (.val cp) = true) (hci : truthy (.val ci) = true)
    (htag : truthy (.val tag) = true)
    (hmiss : mapGet s.chargerConnections (.val cp) = none) :
    handleStartPost s t (.val (.obj [("chargePointId", cp), ("connectorId", ci),
        ("idTag", tag)])) =
      .ok ({ status := 200,
             body := "RemoteStartTransaction sent to charger " ++ jsDisplay (.val cp) },
           [Effect.logError ("Charger with ID " ++ jsDisplay (.val cp) ++ " not connected")]) := by
  simp [handleStartPost, getProp, lookupField, bind, Except.bind, pure, Except.pure,
        hcp, hci, htag, sendRemoteStartTransaction, sendMessageToCharger, hmiss]

/-- C3 witness: the amended claim at a concrete unconnected identity. -/
theorem C3_not_connected_logged_only_http_200_witness :
    handleStartPost ⟨[]⟩ 3 (.val (.obj [("chargePointId", .str "GHOST"),
        ("connectorId", .num 1), ("idTag", .str "T")])) =
      .ok ({ status := 200, body := "RemoteStartTransaction sent to charger GHOST" },
           [Effect.logError "Charger with ID GHOST not connected"]) :=
  C3_not_connected_logged_only_http_200 ⟨[]⟩ 3 (.str "GHOST") (.num 1) (.str "T")
    rfl rfl rfl rfl

/-- C4 counterexample: a RemoteStartTransaction and a
RemoteStopTransaction issued in the same millisecond (Date.now() =
1700000000000) are distinct sends but carry the same generated uniqueId,
refuting the claimed uniqueness guarantee. -/
theorem C4_counterexample_same_millisecond_collision :
    frameUniqueId (remoteStartFrame 1700000000000 (.val (.num 1)) (.val (.str "TAG1"))) =
      frameUniqueId (remoteStopFrame 1700000000000 (.val (.num 7))) ∧
    frameAction (remoteStartFrame 1700000000000 (.val (.num 1)) (.val (.str "TAG1"))) ≠
      frameAction (remoteStopFrame 1700000000000 (.val (.num 7))) := ⟨rfl, by decide⟩

/-- C4 (amended): the uniqueId of every outbound command frame is exactly
the send's millisecond timestamp `Date.now()` rendered as a string, so
ids are distinct only across distinct milliseconds and two sends within
the same millisecond collide (and no pending-correlation set exists to
check collisions against). -/
theorem C4_uniqueId_is_send_timestamp (t : Nat) (ci tag tx : JsVal) :
    frameUniqueId (remoteStartFrame t ci tag) = some (toString t) ∧
    frameUniqueId (remoteStopFrame t tx) = some (toString t) := ⟨rfl, rfl⟩

/-- C4 witness: the timestamp id at a concrete send time. -/
theorem C4_uniqueId_is_send_timestamp_witness :
    frameUniqueId (remoteStartFrame 1700000000000 (.val (.num 1)) (.val (.str "TAG1"))) =
      some "1700000000000" :=
  (C4_uniqueId_is_send_timestamp 1700000000000 (.val (.num 1)) (.val (.str "TAG1"))
    (.val (.num 7))).1

/-- C5: the claim says a send to a connected identity creates exactly one
pending correlation keyed by the fresh uniqueId, later resolved by the
matching CallResult.  The code keeps no correlation state: a `POST /start`
to connected SN42 emits the frame and leaves the program state (the
connection map, its only mutable datum) untouched, and a CallResult
carrying the very uniqueId just generated changes no state either — it
only produces a log line (of the undefined `action` property). -/
theorem C5_no_pending_correlation_recorded :
    handleStartPost ⟨[(.val (.str "SN42"), 0)]⟩ 7
        (.val (.obj [("chargePointId", .str "SN42"), ("connectorId", .num 1),
                     ("idTag", .str "TAG1")])) =
      .ok ({ status := 200, body := "RemoteStartTransaction sent to charger SN42" },
           [Effect.sendFrame 0 (remoteStartFrame 7 (.val (.num 1)) (.val (.str "TAG1"))),
            Effect.log "Message sent to charger SN42"]) ∧
    handleParsed ⟨[(.val (.str "SN42"), 0)]⟩ 0 "t"
        (.val (.obj [("messageTypeId", .num 3), ("uniqueId", .str "7"),
                     ("payload", .obj [])])) =
      .ok (⟨[(.val (.str "SN42"), 0)]⟩, [Effect.log "Received response for: undefined"]) :=
  ⟨rfl, rfl⟩

/-- C6 counterexample: a payload whose `chargePointSerialNumber` field is
present but the empty string derives the model name as identity, not the
serial, because the code uses JavaScript truthiness, refuting the claim
that presence of the field suffices. -/
theorem C6_counterexample_empty_serial :
    lookupField [("chargePointModel", .str "X1"), ("chargePointVendor", .str "Acme"),
        ("chargePointSerialNumber", .str "")] "chargePointSerialNumber" = some (.str "") ∧
    chargePointIdOf (.val (.obj [("chargePointModel", .str "X1"),
        ("chargePointVendor", .str "Acme"), ("chargePointSerialNumber", .str "")])) =
      .ok (.val (.str "X1")) := ⟨rfl, rfl⟩

/-- C6 (amended): the derived ChargePointIdentity is the
`chargePointSerialNumber` field when that field is truthy (present with a
non-empty-string-like value), and otherwise (absent, or present but
falsy) it is the `chargePointModel` field. -/
theorem C6_identity_truthy_serial_else_model (fs : List (String × Json)) :
    (truthy (objField fs "chargePointSerialNumber") = true →
        chargePointIdOf (.val (.obj fs)) = .ok (objField fs "chargePointSerialNumber")) ∧
    (truthy (objField fs "chargePointSerialNumber") = false →
        chargePointIdOf (.val (.obj fs)) = .ok (objField fs "chargePointModel")) := by
  constructor <;> intro h <;>
    simp [chargePointIdOf, getProp_obj, bind, Except.bind, pure, Except.pure, jsOr, h]

/-- C6 witness: a present, non-empty serial number is taken as identity. -/
theorem C6_identity_truthy_serial_else_model_witness :
    chargePointIdOf (.val (.obj [("chargePointModel", .str "X1"),
        ("chargePointVendor", .str "Acme"), ("chargePointSerialNumber", .str "SN42")])) =
      .ok (.val (.str "SN42")) :=
  (C6_identity_truthy_serial_else_model [("chargePointModel", .str "X1"),
    ("chargePointVendor", .str "Acme"), ("chargePointSerialNumber", .str "SN42")]).1 rfl

/-- C7: two BootNotifications with the same derived identity on two
different connections leave the registry with exactly one entry for that
identity, bound to the later connection; neither handler invocation emits
a socket close (the registry never tears the evicted connection down),
and every other identity's binding is unchanged. -/
theorem C7_identity_collision_evict_and_replace (s : SrvState) (c1 c2 : ConnId)
    (u1 u2 serial model vendor t1 t2 : String) (_hcc : c1 ≠ c2) (hserial : serial ≠ "")
    (hok : keysOk s.chargerConnections) :
    handleParsed s c1 t1 (.val (bootMsg u1 serial model vendor)) =
      .ok (⟨mapSet s.chargerConnections (.val (.str serial)) c1⟩,
           bootEffects c1 serial model vendor u1 t1) ∧
    handleParsed ⟨mapSet s.chargerConnections (.val (.str serial)) c1⟩ c2 t2
        (.val (bootMsg u2 serial model vendor)) =
      .ok (⟨mapSet (mapSet s.chargerConnections (.val (.str serial)) c1)
              (.val (.str serial)) c2⟩,
           bootEffects c2 serial model vendor u2 t2) ∧
    mapGet (mapSet (mapSet s.chargerConnections (.val (.str serial)) c1)
        (.val (.str serial)) c2) (.val (.str serial)) = some c2 ∧
    countKey (mapSet (mapSet s.chargerConnections (.val (.str serial)) c1)
        (.val (.str serial)) c2) (.val (.str serial)) = 1 ∧
    ((bootEffects c1 serial model vendor u1 t1 ++
      bootEffects c2 serial model vendor u2 t2).all (fun eff => !isCloseEffect eff)) = true ∧
    (∀ k, keyEq (.val (.str serial)) k = false →
        mapGet (mapSet (mapSet s.chargerConnections (.val (.str serial)) c1)
            (.val (.str serial)) c2) k = mapGet s.chargerConnections k) := by
  have hor := jsOr_str_of_ne model hserial
  refine ⟨?_, ?_, ?_, ?_, ?_, ?_⟩
  · rw [boot_step_eq s c1 u1 serial model vendor t1, hor]
    rfl
  · rw [boot_step_eq _ c2 u2 serial model vendor t2, hor]
    rfl
  · exact mapGet_mapSet_self _ _ _ (keyEq_str_self serial)
  · exact countKey_mapSet _ _ _ (keyEq_str_self serial) (keysOk_mapSet _ _ hok)
  · rfl
  · intro k hk
    rw [mapGet_mapSet_ne _ _ _ _ hk, mapGet_mapSet_ne _ _ _ _ hk]

/-- C7 witness: connections 0 and 1 both boot as SN42 on the empty
registry; the final registry binds SN42 to connection 1 exactly once and
other identities are unaffected. -/
theorem C7_identity_collision_evict_and_replace_witness :
    mapGet (mapSet (mapSet ([] : List (JsVal × ConnId)) (.val (.str "SN42")) 0)
        (.val (.str "SN42")) 1) (.val (.str "SN42")) = some 1 ∧
    countKey (mapSet (mapSet ([] : List (JsVal × ConnId)) (.val (.str "SN42")) 0)
        (.val (.str "SN42")) 1) (.val (.str "SN42")) = 1 ∧
    mapGet (mapSet (mapSet ([] : List (JsVal × ConnId)) (.val (.str "SN42")) 0)
        (.val (.str "SN42")) 1) (.val (.str "OTHER")) =
      mapGet ([] : List (JsVal × ConnId)) (.val (.str "OTHER")) := by
  have h := C7_identity_collision_evict_and_replace ⟨[]⟩ 0 1 "u1" "u2" "SN42" "X1" "Acme"
    "t1" "t2" (by decide) (by decide) List.Pairwise.nil
  exact ⟨h.2.2.1, h.2.2.2.1, h.2.2.2.2.2 (.val (.str "OTHER")) rfl⟩

/-- C8: the claim says every malformed frame — including invalid JSON —
is dropped with a log while the connection stays open, and no single
message is fatal to the process.  The code calls `JSON.parse` with no
try/catch, so invalid JSON throws out of the message handler (an uncaught
exception that kills the Node process).  A well-formed-JSON malformed
array is indeed only logged and dropped, but a non-array top-level object
of the right named-field shape is fully processed rather than dropped. -/
theorem C8_invalid_json_raises_uncaught :
    processRaw ⟨[]⟩ 0 "t" none = .error .parseError ∧
    processRaw ⟨[]⟩ 0 "t" (some (.arr [.num 42])) =
      .ok (⟨[]⟩, [Effect.log "Received", Effect.log "Unsupported message type or action"]) ∧
    processRaw ⟨[]⟩ 0 "t" (some (bootMsg "1" "SN42" "X1" "Acme")) =
      .ok (⟨[(.val (.str "SN42"), 0)]⟩,
           Effect.log "Received" :: bootEffects 0 "SN42" "X1" "Acme" "1" "t") :=
  ⟨rfl, rfl, rfl⟩

/-- C9: the claim says `POST /start` returns 400 exactly when a body field
is missing, and 200 when all three are present, including `connectorId: 0`
which the spec permits.  The code's guard `!chargePointId || !connectorId
|| !idTag` uses truthiness, so the present integer 0 is rejected: with all
three fields present and connectorId 0 it answers 400 "Missing required
parameters" and sends nothing. -/
theorem C9_connectorId_zero_rejected_400 :
    handleStartPost ⟨[(.val (.str "SN42"), 0)]⟩ 99
        (.val (.obj [("chargePointId", .str "SN42"), ("connectorId", .num 0),
                     ("idTag", .str "TAG1")])) =
      .ok ({ status := 400,
             body := "Missing required parameters: chargePointId, connectorId, idTag" },
           []) := rfl

/-- C10: the close handler removes exactly the first registry entry (in
map iteration order) whose value is the closing connection and leaves all
later entries unchanged — including a stale second identity mapped to the
same, now-closed connection. -/
theorem C10_close_removes_first_match_only (c : ConnId) (pre post : List (JsVal × ConnId))
    (ident : JsVal) (hpre : ∀ e ∈ pre, e.2 ≠ c) :
    closeStep ⟨pre ++ (ident, c) :: post⟩ c = ⟨pre ++ post⟩ := by
  show SrvState.mk (removeFirstByConn (pre ++ (ident, c) :: post) c) = _
  rw [removeFirst_append pre post ident c hpre]

/-- C10 witness: closing connection 7, registered under I1 and (stale)
I2, removes only the I1 entry; the I2 entry survives pointing at the
closed connection. -/
theorem C10_close_removes_first_match_only_witness :
    closeStep ⟨[(.val (.str "I0"), 3), (.val (.str "I1"), 7), (.val (.str "I2"), 7)]⟩ 7 =
      ⟨[(.val (.str "I0"), 3), (.val (.str "I2"), 7)]⟩ :=
  C10_close_removes_first_match_only 7 [(.val (.str "I0"), 3)] [(.val (.str "I2"), 7)]
    (.val (.str "I1")) (by decide)

end LocalOcpp
